import Mathlib

/-!
Shallow embedding of the enphase_envoy_exporter core (src/main.rs): the
Envoy device client with its cached bearer token, the two-step cloud
authentication, the three typed fetch operations, and the metrics scrape
handler. Network interaction is modelled by an environment mapping each
outbound request to its response; f64 values that the program only passes
through are modelled as rationals; raw response bytes are lists of byte
values.
-/

namespace EnphaseEnvoy

/-- JSON values as decoded by serde_json; numbers are modelled as
rationals. -/
inductive Json where
  | null : Json
  | bool (b : Bool) : Json
  | num (q : ℚ) : Json
  | str (s : String) : Json
  | arr (elems : List Json) : Json
  | obj (fields : List (String × Json)) : Json

/-- First binding of a key in a JSON object; fields that no decoder asks
for are ignored, which models serde ignoring unknown fields. -/
def lookupField : List (String × Json) → String → Option Json
  | [], _ => none
  | (k, v) :: rest, key => if k = key then some v else lookupField rest key

/-- LoginResponse (main.rs line 326): the session id returned by the cloud
login endpoint. -/
structure LoginResponse where
  session_id : String
deriving DecidableEq

/-- serde decoding of LoginResponse: an object with a string field
named session_id. -/
def LoginResponse.decode (j : Json) : Option LoginResponse :=
  match j with
  | .obj fields =>
    match lookupField fields "session_id" with
    | some (.str s) => some ⟨s⟩
    | _ => none
  | _ => none

/-- CumulativeProduction (main.rs line 343): the currW field. -/
structure CumulativeProduction where
  current_watts : ℚ
deriving DecidableEq

/-- ProductionResponse (main.rs line 338): the cumulative object. -/
structure ProductionResponse where
  cumulative : CumulativeProduction
deriving DecidableEq

/-- serde decoding of ProductionResponse: object with a cumulative object
holding a numeric currW field. -/
def ProductionResponse.decode (j : Json) : Option ProductionResponse :=
  match j with
  | .obj fields =>
    match lookupField fields "cumulative" with
    | some (.obj inner) =>
      match lookupField inner "currW" with
      | some (.num q) => some ⟨⟨q⟩⟩
      | _ => none
    | _ => none
  | _ => none

/-- InverterProduction (main.rs line 349): serialNumber and
lastReportWatts of one inverter. -/
structure InverterProduction where
  serial_num : String
  last_known_watts : ℚ
deriving DecidableEq

/-- serde decoding of one InverterProduction record. -/
def InverterProduction.decode (j : Json) : Option InverterProduction :=
  match j with
  | .obj fields =>
    match lookupField fields "serialNumber", lookupField fields "lastReportWatts" with
    | some (.str s), some (.num q) => some ⟨s, q⟩
    | _, _ => none
  | _ => none

/-- serde decoding of a JSON array elementwise into inverter records;
any bad element fails the whole decode. -/
def decodeInverterItems : List Json → Option (List InverterProduction)
  | [] => some []
  | j :: rest =>
    match InverterProduction.decode j with
    | none => none
    | some it => (decodeInverterItems rest).map (fun tl => it :: tl)

/-- serde decoding of the Vec of InverterProduction records. -/
def decodeInverterList (j : Json) : Option (List InverterProduction) :=
  match j with
  | .arr items => decodeInverterItems items
  | _ => none

/-- CumulativeProductionResponseItem (main.rs line 362): a production
source record with a type discriminator and a lifetime total. -/
structure CumulativeProductionResponseItem where
  kind : String
  lifetime_watt_hours : ℚ
deriving DecidableEq

/-- serde decoding of one production source record. -/
def decodeProductionItem (j : Json) : Option CumulativeProductionResponseItem :=
  match j with
  | .obj fields =>
    match lookupField fields "type", lookupField fields "whLifetime" with
    | some (.str s), some (.num q) => some ⟨s, q⟩
    | _, _ => none
  | _ => none

/-- serde decoding of a JSON array of production source records. -/
def decodeProductionItems : List Json → Option (List CumulativeProductionResponseItem)
  | [] => some []
  | j :: rest =>
    match decodeProductionItem j with
    | none => none
    | some it => (decodeProductionItems rest).map (fun tl => it :: tl)

/-- CumulativeProductionResponse (main.rs line 357): the production list. -/
structure CumulativeProductionResponse where
  production : List CumulativeProductionResponseItem
deriving DecidableEq

/-- serde decoding of CumulativeProductionResponse. -/
def CumulativeProductionResponse.decode (j : Json) : Option CumulativeProductionResponse :=
  match j with
  | .obj fields =>
    match lookupField fields "production" with
    | some (.arr items) => (decodeProductionItems items).map CumulativeProductionResponse.mk
    | _ => none
  | _ => none

/-- JSON encoding of a production source record, used to state theorems
about arbitrary decoded lists. -/
def encodeProductionItem (it : CumulativeProductionResponseItem) : Json :=
  .obj [("type", .str it.kind), ("whLifetime", .num it.lifetime_watt_hours)]

/-- One pass of lossy UTF-8 decoding, following Rust's
String::from_utf8_lossy: well-formed scalar sequences decode to their
scalar value and each maximal invalid subpart is replaced by one
U+FFFD replacement character, so the decode is total and never fails.
The fuel argument only bounds the number of decoded units for structural
recursion; every unit consumes at least one input byte, so fuel equal to
the input length, as supplied by utf8LossyChars, is never exhausted. -/
def utf8LossyGo : Nat → List Nat → List Char
  | 0, _ => []
  | _ + 1, [] => []
  | fuel + 1, b :: rest =>
    if b < 0x80 then
      Char.ofNat b :: utf8LossyGo fuel rest
    else if b < 0xC2 then
      Char.ofNat 0xFFFD :: utf8LossyGo fuel rest
    else if b < 0xE0 then
      match rest with
      | [] => [Char.ofNat 0xFFFD]
      | c1 :: r1 =>
        if 0x80 ≤ c1 && c1 ≤ 0xBF then
          Char.ofNat ((b - 0xC0) * 64 + (c1 - 0x80)) :: utf8LossyGo fuel r1
        else
          Char.ofNat 0xFFFD :: utf8LossyGo fuel (c1 :: r1)
    else if b < 0xF0 then
      match rest with
      | [] => [Char.ofNat 0xFFFD]
      | c1 :: r1 =>
        if (if b = 0xE0 then 0xA0 else 0x80) ≤ c1 && c1 ≤ (if b = 0xED then 0x9F else 0xBF) then
          match r1 with
          | [] => [Char.ofNat 0xFFFD]
          | c2 :: r2 =>
            if 0x80 ≤ c2 && c2 ≤ 0xBF then
              Char.ofNat ((b - 0xE0) * 4096 + (c1 - 0x80) * 64 + (c2 - 0x80)) :: utf8LossyGo fuel r2
            else
              Char.ofNat 0xFFFD :: utf8LossyGo fuel (c2 :: r2)
        else
          Char.ofNat 0xFFFD :: utf8LossyGo fuel (c1 :: r1)
    else if b < 0xF5 then
      match rest with
      | [] => [Char.ofNat 0xFFFD]
      | c1 :: r1 =>
        if (if b = 0xF0 then 0x90 else 0x80) ≤ c1 && c1 ≤ (if b = 0xF4 then 0x8F else 0xBF) then
          match r1 with
          | [] => [Char.ofNat 0xFFFD]
          | c2 :: r2 =>
            if 0x80 ≤ c2 && c2 ≤ 0xBF then
              match r2 with
              | [] => [Char.ofNat 0xFFFD]
              | c3 :: r3 =>
                if 0x80 ≤ c3 && c3 ≤ 0xBF then
                  Char.ofNat ((b - 0xF0) * 262144 + (c1 - 0x80) * 4096 + (c2 - 0x80) * 64 + (c3 - 0x80)) ::
                    utf8LossyGo fuel r3
                else
                  Char.ofNat 0xFFFD :: utf8LossyGo fuel (c3 :: r3)
            else
              Char.ofNat 0xFFFD :: utf8LossyGo fuel (c2 :: r2)
        else
          Char.ofNat 0xFFFD :: utf8LossyGo fuel (c1 :: r1)
    else
      Char.ofNat 0xFFFD :: utf8LossyGo fuel rest

/-- Lossy UTF-8 decoding of a byte sequence. -/
def utf8LossyChars (l : List Nat) : List Char := utf8LossyGo l.length l

/-- String produced from bytes by lossy UTF-8 decoding. -/
def utf8Lossy (bytes : List Nat) : String := ⟨utf8LossyChars bytes⟩

/-- The fixed cloud login endpoint (main.rs line 242). -/
def loginUrl : String := "https://enlighten.enphaseenergy.com/login/login.json"

/-- The fixed token issuance endpoint (main.rs line 254). -/
def tokensUrl : String := "https://entrez.enphaseenergy.com/tokens"

/-- reqwest statuses on which Response::error_for_status fails: client
errors (4xx) and server errors (5xx). -/
def errorStatus (s : Nat) : Bool := decide (400 ≤ s ∧ s ≤ 599)

/-- The shapes of reqwest::Error this program can produce: a send that
failed at the connection level, a response rejected by error_for_status,
and a body that failed to decode. Every variant carries the request URL,
which is the only data distinguishing errors of the two auth steps. -/
inductive ReqError where
  | transport (url : String)
  | status (url : String) (code : Nat)
  | decodeFailed (url : String)
deriving DecidableEq

/-- The status-error variant produced by error_for_status. -/
def ReqError.isStatus : ReqError → Bool
  | .status _ _ => true
  | _ => false

/-- The credentials held by Client (main.rs line 197). -/
structure Credentials where
  hostname : String
  username : String
  password : String
  serial_num : String
deriving DecidableEq

/-- TokenRequest (main.rs line 331): the JSON payload of the token
issuance call. -/
structure TokenRequest where
  session_id : String
  username : String
  serial_num : String
deriving DecidableEq

/-- One outbound authentication request, recorded so theorems can count
authentication exchanges. -/
inductive AuthCall where
  | cloudLogin (email : String) (password : String)
  | tokenIssuance (req : TokenRequest)
deriving DecidableEq

/-- The endpoint an authentication request goes to. -/
def AuthCall.endpoint : AuthCall → String
  | .cloudLogin _ _ => loginUrl
  | .tokenIssuance _ => tokensUrl

/-- Outcome of one HTTP exchange: a connection-level failure, or a
response with a status code and a body. -/
inductive HttpResult (β : Type) where
  | failure : HttpResult β
  | response (status : Nat) (body : β) : HttpResult β

/-- The network environment: responses of the cloud login endpoint (as a
function of the submitted email and password), of the token issuance
endpoint (as a function of the submitted TokenRequest, its body being raw
bytes), and of the device (as a function of the bearer token and path). -/
structure Env where
  login : String → String → HttpResult Json
  tokens : TokenRequest → HttpResult (List Nat)
  device : String → String → HttpResult Json

/-- Client::authenticate (main.rs lines 235 to 268): POST the credentials
as a multipart form to the cloud login endpoint, require a non-error
status, decode the session id, POST the TokenRequest to the token
issuance endpoint, require a non-error status, and lossily UTF-8 decode
the raw response bytes into the token. The second component records the
outbound authentication requests that were made. -/
def authenticate (env : Env) (c : Credentials) :
    Except ReqError String × List AuthCall :=
  match env.login c.username c.password with
  | .failure => (.error (.transport loginUrl), [.cloudLogin c.username c.password])
  | .response s body =>
    if errorStatus s then
      (.error (.status loginUrl s), [.cloudLogin c.username c.password])
    else
      match LoginResponse.decode body with
      | none => (.error (.decodeFailed loginUrl), [.cloudLogin c.username c.password])
      | some lr =>
        match env.tokens ⟨lr.session_id, c.username, c.serial_num⟩ with
        | .failure =>
          (.error (.transport tokensUrl),
            [.cloudLogin c.username c.password,
             .tokenIssuance ⟨lr.session_id, c.username, c.serial_num⟩])
        | .response s2 bytes =>
          if errorStatus s2 then
            (.error (.status tokensUrl s2),
              [.cloudLogin c.username c.password,
               .tokenIssuance ⟨lr.session_id, c.username, c.serial_num⟩])
          else
            (.ok (utf8Lossy bytes),
              [.cloudLogin c.username c.password,
               .tokenIssuance ⟨lr.session_id, c.username, c.serial_num⟩])

/-- Client::token (main.rs lines 270 to 280): under the token mutex,
return the cached token if present; otherwise call authenticate, store
the token in the cache on success, and return it. On failure the error
propagates and the cache is left as it was. Returns the result, the
cache contents afterwards, and the authentication requests made. -/
def Client.token (env : Env) (c : Credentials) :
    Option String → Except ReqError String × Option String × List AuthCall
  | some t => (.ok t, some t, [])
  | none =>
    match authenticate env c with
    | (.ok t, calls) => (.ok t, some t, calls)
    | (.error e, calls) => (.error e, none, calls)

/-- One bearer-authenticated request sent to the device. -/
structure DeviceRequest where
  path : String
  bearer : String
deriving DecidableEq

/-- The device URL a path resolves to (main.rs line 314). -/
def deviceUrl (c : Credentials) (path : String) : String :=
  "https://" ++ c.hostname ++ path

/-- Everything observable about one fetch operation: its result, the
token cache contents afterwards, the authentication requests made, and
the device requests issued. -/
structure FetchOutcome (ρ : Type) where
  result : Except ReqError ρ
  cache : Option String
  authCalls : List AuthCall
  deviceCalls : List DeviceRequest

/-- Client::get (main.rs lines 306 to 323): obtain a token (propagating
its error), GET the device path with that bearer token, require a
non-error status, and decode the JSON body. There is no retry: at most
one device request is issued, and the token cache is only touched by
Client.token. -/
def Client.get {ρ : Type} (path : String) (dec : Json → Option ρ) (env : Env)
    (c : Credentials) (st : Option String) : FetchOutcome ρ :=
  match Client.token env c st with
  | (.error e, st2, ac) => ⟨.error e, st2, ac, []⟩
  | (.ok t, st2, ac) =>
    match env.device t path with
    | .failure => ⟨.error (.transport (deviceUrl c path)), st2, ac, [⟨path, t⟩]⟩
    | .response s body =>
      if errorStatus s then
        ⟨.error (.status (deviceUrl c path) s), st2, ac, [⟨path, t⟩]⟩
      else
        match dec body with
        | none => ⟨.error (.decodeFailed (deviceUrl c path)), st2, ac, [⟨path, t⟩]⟩
        | some r => ⟨.ok r, st2, ac, [⟨path, t⟩]⟩

/-- Client::production_watts (main.rs lines 282 to 286). -/
def Client.production_watts (env : Env) (c : Credentials) (st : Option String) :
    FetchOutcome ℚ :=
  let o := Client.get "/ivp/meters/reports/production" ProductionResponse.decode env c st
  ⟨o.result.map (fun r => r.cumulative.current_watts), o.cache, o.authCalls, o.deviceCalls⟩

/-- Client::inverter_production_watts (main.rs lines 288 to 291). -/
def Client.inverter_production_watts (env : Env) (c : Credentials) (st : Option String) :
    FetchOutcome (List InverterProduction) :=
  Client.get "/api/v1/production/inverters" decodeInverterList env c st

/-- The result mapping of Client::lifetime_watt_hours: the first record
whose type is the literal "inverters", defaulting to 0 when absent
(unwrap_or_default on f64). -/
def extractLifetime (resp : CumulativeProductionResponse) : ℚ :=
  ((resp.production.find? (fun item => item.kind == "inverters")).map
    (fun item => item.lifetime_watt_hours)).getD 0

/-- Client::lifetime_watt_hours (main.rs lines 293 to 304). -/
def Client.lifetime_watt_hours (env : Env) (c : Credentials) (st : Option String) :
    FetchOutcome ℚ :=
  let o := Client.get "/production.json" CumulativeProductionResponse.decode env c st
  ⟨o.result.map extractLifetime, o.cache, o.authCalls, o.deviceCalls⟩

/-- The per-inverter gauge family keyed by serial number, modelled as an
association list from serial to gauge value. -/
def lookupGauge : List (String × ℚ) → String → Option ℚ
  | [], _ => none
  | (s, v) :: rest, serial => if s = serial then some v else lookupGauge rest serial

/-- get_or_create on the gauge family followed by set: assign the value
to the serial's gauge, creating the gauge when the serial is new; gauges
of other serials are untouched and never removed. -/
def setGauge : List (String × ℚ) → String → ℚ → List (String × ℚ)
  | [], serial, v => [(serial, v)]
  | (s, w) :: rest, serial, v =>
    if s = serial then (s, v) :: rest else (s, w) :: setGauge rest serial v

/-- The inverter update loop of the metrics handler (main.rs lines 156 to
163): for each fetched inverter record, set its serial's gauge to the
reported watts. -/
def updateInverterGauges (gauges : List (String × ℚ)) (invs : List InverterProduction) :
    List (String × ℚ) :=
  invs.foldl (fun gs inv => setGauge gs inv.serial_num inv.last_known_watts) gauges

/-- The registry state the metrics endpoint exposes: one gauge for
current watts, the per-serial inverter gauge family, and the lifetime
watt hours counter. -/
structure MetricsState where
  production_watts : ℚ
  inverter_production_watts : List (String × ℚ)
  lifetime_watt_hours : ℚ
deriving DecidableEq

/-- The metrics request handler (main.rs lines 133 to 192), given the
outcomes of the three fetches its spawned tasks perform. Each task
panics on a fetch error (the expect calls), but the panic only kills
that one spawned task: join_all collects and discards the join results,
so a failed task leaves its metric untouched while the handler proceeds
to encode the registry and reply with the 200 success status. The three
tasks write disjoint registry cells, so they are applied in sequence. -/
def metricsHandler (st : MetricsState)
    (productionResult : Except ReqError ℚ)
    (inverterResult : Except ReqError (List InverterProduction))
    (lifetimeResult : Except ReqError ℚ) : Nat × MetricsState :=
  let st1 := match productionResult with
    | .ok w => { st with production_watts := w }
    | .error _ => st
  let st2 := match inverterResult with
    | .ok invs =>
      { st1 with inverter_production_watts :=
          updateInverterGauges st1.inverter_production_watts invs }
    | .error _ => st1
  let st3 := match lifetimeResult with
    | .ok l => { st2 with lifetime_watt_hours := l }
    | .error _ => st2
  (200, st3)

/-- Where one concurrent caller of Client::token stands: before the
mutex, holding the mutex about to inspect the cache, holding the mutex
with the authenticate request in flight, or finished with a result. -/
inductive TokenPC where
  | ready : TokenPC
  | locked : TokenPC
  | authInFlight : TokenPC
  | finished (r : Except ReqError String) : TokenPC

/-- The shared state of n concurrent callers of Client::token: each
caller's position, the owner of the tokio token mutex, and the cached
token cell it guards. -/
structure TokenSys (n : Nat) where
  pc : Fin n → TokenPC
  owner : Option (Fin n)
  cache : Option String

/-- All callers at the start, mutex free, cache empty. -/
def TokenSys.init (n : Nat) : TokenSys n :=
  ⟨fun _ => .ready, none, none⟩

/-- Interleaving steps of Client::token (main.rs lines 270 to 280): a
caller acquires the free mutex; under the mutex it either returns the
cached token or, finding the cache empty, starts the authenticate
exchange while still holding the mutex; the exchange finishes with any
outcome, a token being stored on success, and the mutex guard is
dropped. -/
inductive TokenStep {n : Nat} : TokenSys n → TokenSys n → Prop where
  | acquire (i : Fin n) {s : TokenSys n} :
      s.pc i = .ready → s.owner = none →
      TokenStep s { s with pc := Function.update s.pc i .locked, owner := some i }
  | checkHit (i : Fin n) {s : TokenSys n} (t : String) :
      s.pc i = .locked → s.owner = some i → s.cache = some t →
      TokenStep s { s with pc := Function.update s.pc i (.finished (.ok t)), owner := none }
  | checkMiss (i : Fin n) {s : TokenSys n} :
      s.pc i = .locked → s.owner = some i → s.cache = none →
      TokenStep s { s with pc := Function.update s.pc i .authInFlight }
  | authOk (i : Fin n) {s : TokenSys n} (t : String) :
      s.pc i = .authInFlight → s.owner = some i →
      TokenStep s { s with pc := Function.update s.pc i (.finished (.ok t)),
                           owner := none, cache := some t }
  | authFailed (i : Fin n) {s : TokenSys n} (e : ReqError) :
      s.pc i = .authInFlight → s.owner = some i →
      TokenStep s { s with pc := Function.update s.pc i (.finished (.error e)), owner := none }

/-- States reachable by interleaving concurrent Client::token callers
from the initial state. -/
def TokenReachable {n : Nat} (s : TokenSys n) : Prop :=
  Relation.ReflTransGen TokenStep (TokenSys.init n) s

/-- Lock-ownership invariant: any caller holding the mutex, in
particular any caller whose authenticate exchange is in flight, is the
recorded mutex owner. -/
def TokenInv {n : Nat} (s : TokenSys n) : Prop :=
  ∀ i, (s.pc i = .locked ∨ s.pc i = .authInFlight) → s.owner = some i

/-- Concrete credentials for witness scenarios. -/
def credW : Credentials := ⟨"envoy.local", "user", "pass", "sn1"⟩

/-- A well-formed cloud login response body. -/
def sessionBody : Json := .obj [("session_id", .str "sid1")]

/-- A well-formed device production report body with currW 532. -/
def prodBody : Json := .obj [("cumulative", .obj [("currW", .num 532)])]

/-- Healthy network: login and token issuance succeed (token bytes spell
tok) and the device answers the production report. -/
def envAuthOk : Env :=
  ⟨fun _ _ => .response 200 sessionBody,
   fun _ => .response 200 [116, 111, 107],
   fun _ _ => .response 200 prodBody⟩

/-- Authentication succeeds but every device fetch is answered 401. -/
def env401 : Env :=
  ⟨fun _ _ => .response 200 sessionBody,
   fun _ => .response 200 [116, 111, 107],
   fun _ _ => .response 401 .null⟩

/-- The cloud login endpoint rejects the credentials with 401. -/
def envLogin401 : Env :=
  ⟨fun _ _ => .response 401 .null,
   fun _ => .response 200 [116, 111, 107],
   fun _ _ => .response 200 .null⟩

/-- Login succeeds but the token issuance endpoint answers 403. -/
def envTokens403 : Env :=
  ⟨fun _ _ => .response 200 sessionBody,
   fun _ => .response 403 [],
   fun _ _ => .response 200 .null⟩

/-- The cloud login endpoint answers a non-2xx status outside the 4xx
and 5xx ranges with a well-formed body. -/
def envLogin301 : Env :=
  ⟨fun _ _ => .response 301 sessionBody,
   fun _ => .response 200 [116, 111, 107],
   fun _ _ => .response 200 .null⟩

/-- The cloud login endpoint is unreachable. -/
def envLoginDown : Env :=
  ⟨fun _ _ => .failure, fun _ => .failure, fun _ _ => .failure⟩

/-- Token issuance succeeds with a body that is not valid UTF-8: the
byte 255 sits between the bytes of h and i. -/
def envBadTokenBytes : Env :=
  ⟨fun _ _ => .response 200 sessionBody,
   fun _ => .response 200 [104, 255, 105],
   fun _ _ => .response 200 .null⟩

/-- A production list with no record of type inverters. -/
def lifetimeListA : List CumulativeProductionResponseItem := [⟨"eim", 5⟩]

/-- A production list with two records of type inverters after a record
of another type. -/
def lifetimeListB : List CumulativeProductionResponseItem :=
  [⟨"eim", 5⟩, ⟨"inverters", 42⟩, ⟨"inverters", 7⟩]

/-- Device serving /production.json with lifetimeListA. -/
def envLifetimeA : Env :=
  ⟨fun _ _ => .failure, fun _ => .failure,
   fun _ _ => .response 200 (.obj [("production", .arr (lifetimeListA.map encodeProductionItem))])⟩

/-- Device serving /production.json with lifetimeListB. -/
def envLifetimeB : Env :=
  ⟨fun _ _ => .failure, fun _ => .failure,
   fun _ _ => .response 200 (.obj [("production", .arr (lifetimeListB.map encodeProductionItem))])⟩

/-- Device reporting zero inverters: a valid empty JSON list. -/
def envEmptyInverters : Env :=
  ⟨fun _ _ => .failure, fun _ => .failure, fun _ _ => .response 200 (.arr [])⟩

/-- Two concurrent token callers, caller 0 holding the mutex. -/
def tokenSysLocked : TokenSys 2 :=
  { TokenSys.init 2 with pc := Function.update (TokenSys.init 2).pc 0 .locked, owner := some 0 }

/-- Two concurrent token callers, caller 0 holding the mutex with its
authenticate exchange in flight. -/
def tokenSysAuth : TokenSys 2 :=
  { tokenSysLocked with pc := Function.update tokenSysLocked.pc 0 .authInFlight }

/-- A successful authenticate made exactly the cloud login followed by
the token issuance carrying the decoded session id. -/
lemma authenticate_ok_shape (env : Env) (c : Credentials) (t : String) (calls : List AuthCall)
    (h : authenticate env c = (.ok t, calls)) :
    ∃ sid, calls =
      [.cloudLogin c.username c.password, .tokenIssuance ⟨sid, c.username, c.serial_num⟩] := by
  unfold authenticate at h
  split at h
  · simp at h
  · split at h
    · simp at h
    · split at h
      · simp at h
      · rename_i lr _
        split at h
        · simp at h
        · split at h
          · simp at h
          · refine ⟨lr.session_id, ?_⟩
            simp only [Prod.mk.injEq] at h
            exact h.2.symm

/-- token on a populated cache returns the cached token, leaves the
cache alone, and makes no authentication request. -/
lemma token_some (env : Env) (c : Credentials) (t : String) :
    Client.token env c (some t) = (.ok t, some t, []) := rfl

/-- token on an empty cache stores the token authenticate produced. -/
lemma token_none_ok (env : Env) (c : Credentials) (t : String) (calls : List AuthCall)
    (h : authenticate env c = (.ok t, calls)) :
    Client.token env c none = (.ok t, some t, calls) := by
  unfold Client.token
  rw [h]

/-- token on an empty cache propagates an authenticate failure and
leaves the cache empty. -/
lemma token_none_error (env : Env) (c : Credentials) (e : ReqError) (calls : List AuthCall)
    (h : authenticate env c = (.error e, calls)) :
    Client.token env c none = (.error e, none, calls) := by
  unfold Client.token
  rw [h]

/-- get propagates a token failure without issuing any device request. -/
lemma get_of_token_error {ρ : Type} (path : String) (dec : Json → Option ρ) (env : Env)
    (c : Credentials) (st : Option String) (e : ReqError) (st2 : Option String)
    (ac : List AuthCall) (h : Client.token env c st = (.error e, st2, ac)) :
    Client.get path dec env c st = ⟨.error e, st2, ac, []⟩ := by
  unfold Client.get
  rw [h]

/-- Once the token step succeeded, get leaves the cache where the token
step left it, makes no further authentication request, and issues
exactly one device request bearing that token, whatever the device
answers. -/
lemma get_of_token_ok {ρ : Type} (path : String) (dec : Json → Option ρ) (env : Env)
    (c : Credentials) (st : Option String) (t : String) (st2 : Option String)
    (ac : List AuthCall) (h : Client.token env c st = (.ok t, st2, ac)) :
    (Client.get path dec env c st).cache = st2 ∧
    (Client.get path dec env c st).authCalls = ac ∧
    (Client.get path dec env c st).deviceCalls = [⟨path, t⟩] := by
  simp only [Client.get, h]
  cases hd : env.device t path with
  | failure => simp
  | response s body =>
    by_cases hs : errorStatus s
    · simp [hs]
    · simp only [hs, Bool.false_eq_true, if_false]
      cases dec body with
      | none => simp
      | some r => simp

/-- get with a successful token step, a device response and a successful
body decode returns the decoded value. -/
lemma get_ok {ρ : Type} (path : String) (dec : Json → Option ρ) (env : Env)
    (c : Credentials) (st : Option String) (t : String) (st2 : Option String)
    (ac : List AuthCall) (s : Nat) (body : Json) (r : ρ)
    (h : Client.token env c st = (.ok t, st2, ac))
    (hd : env.device t path = .response s body)
    (hs : errorStatus s = false)
    (hdec : dec body = some r) :
    Client.get path dec env c st = ⟨.ok r, st2, ac, [⟨path, t⟩]⟩ := by
  simp only [Client.get, h, hd, hs, hdec, Bool.false_eq_true, if_false]

/-- get surfaces an error status from the device as a status error for
the device URL. -/
lemma get_status_error {ρ : Type} (path : String) (dec : Json → Option ρ) (env : Env)
    (c : Credentials) (st : Option String) (t : String) (st2 : Option String)
    (ac : List AuthCall) (s : Nat) (body : Json)
    (h : Client.token env c st = (.ok t, st2, ac))
    (hd : env.device t path = .response s body)
    (hs : errorStatus s = true) :
    Client.get path dec env c st = ⟨.error (.status (deviceUrl c path) s), st2, ac, [⟨path, t⟩]⟩ := by
  simp only [Client.get, h, hd, hs, if_true]

/-- Decoding inverts the production record encoding. -/
lemma decodeProductionItem_encode (it : CumulativeProductionResponseItem) :
    decodeProductionItem (encodeProductionItem it) = some it := by
  cases it
  rfl

/-- Elementwise decoding inverts the production list encoding. -/
lemma decodeProductionItems_encode (l : List CumulativeProductionResponseItem) :
    decodeProductionItems (l.map encodeProductionItem) = some l := by
  induction l with
  | nil => rfl
  | cons it rest ih =>
    simp only [List.map_cons, decodeProductionItems, decodeProductionItem_encode, ih]
    rfl

/-- find? returns the head of the first match, across an arbitrary
prefix with no match and an arbitrary suffix. -/
lemma find?_append_first {α : Type} (p : α → Bool) (pre post : List α) (a : α)
    (ha : p a = true) (hpre : ∀ x ∈ pre, p x = false) :
    (pre ++ a :: post).find? p = some a := by
  induction pre with
  | nil => simp [List.find?_cons, ha]
  | cons x xs ih =>
    have hx : p x = false := hpre x (by simp)
    simp only [List.cons_append, List.find?_cons, hx]
    exact ih (fun y hy => hpre y (by simp [hy]))

/-- Setting a serial's gauge makes its lookup return the set value. -/
lemma lookupGauge_setGauge_self (gs : List (String × ℚ)) (serial : String) (v : ℚ) :
    lookupGauge (setGauge gs serial v) serial = some v := by
  induction gs with
  | nil => simp [setGauge, lookupGauge]
  | cons p rest ih =>
    obtain ⟨s, w⟩ := p
    by_cases h : s = serial
    · simp [setGauge, lookupGauge, h]
    · simp [setGauge, lookupGauge, h, ih]

/-- Setting one serial's gauge leaves every other serial's lookup
unchanged. -/
lemma lookupGauge_setGauge_ne (gs : List (String × ℚ)) (serial other : String) (v : ℚ)
    (h : other ≠ serial) :
    lookupGauge (setGauge gs serial v) other = lookupGauge gs other := by
  have h' : serial ≠ other := fun hh => h hh.symm
  induction gs with
  | nil => simp [setGauge, lookupGauge, h']
  | cons p rest ih =>
    obtain ⟨s, w⟩ := p
    by_cases hs : s = serial
    · subst hs
      simp [setGauge, lookupGauge, h']
    · by_cases ho : s = other
      · simp [setGauge, lookupGauge, hs, ho, h]
      · simp [setGauge, lookupGauge, hs, ho, ih]

/-- One step of the inverter update loop. -/
lemma updateInverterGauges_cons (gauges : List (String × ℚ)) (x : InverterProduction)
    (rest : List InverterProduction) :
    updateInverterGauges gauges (x :: rest) =
    updateInverterGauges (setGauge gauges x.serial_num x.last_known_watts) rest := rfl

/-- The inverter update loop leaves serials absent from the fetched list
untouched. -/
lemma updateInverterGauges_not_mem (invs : List InverterProduction) :
    ∀ (gauges : List (String × ℚ)) (serial : String),
    serial ∉ invs.map InverterProduction.serial_num →
    lookupGauge (updateInverterGauges gauges invs) serial = lookupGauge gauges serial := by
  induction invs with
  | nil => intro gauges serial _; rfl
  | cons inv rest ih =>
    intro gauges serial h
    simp only [List.map_cons, List.mem_cons, not_or] at h
    rw [updateInverterGauges_cons,
        ih (setGauge gauges inv.serial_num inv.last_known_watts) serial h.2,
        lookupGauge_setGauge_ne gauges inv.serial_num serial inv.last_known_watts h.1]

/-- When the fetched serials are distinct, the inverter update loop
writes every fetched record's watts into its serial's gauge. -/
lemma updateInverterGauges_mem (invs : List InverterProduction) :
    ∀ (gauges : List (String × ℚ)) (inv : InverterProduction),
    inv ∈ invs → (invs.map InverterProduction.serial_num).Nodup →
    lookupGauge (updateInverterGauges gauges invs) inv.serial_num = some inv.last_known_watts := by
  induction invs with
  | nil => intro _ _ hmem _; cases hmem
  | cons x rest ih =>
    intro gauges inv hmem hnd
    simp only [List.map_cons, List.nodup_cons] at hnd
    rw [updateInverterGauges_cons]
    rcases List.mem_cons.mp hmem with h | h
    · subst h
      rw [updateInverterGauges_not_mem rest _ _ hnd.1]
      exact lookupGauge_setGauge_self gauges inv.serial_num inv.last_known_watts
    · exact ih (setGauge gauges x.serial_num x.last_known_watts) inv h hnd.2

/-- The lock-ownership invariant holds initially. -/
lemma tokenInv_init (n : Nat) : TokenInv (TokenSys.init n) := by
  intro i h
  rcases h with h | h <;> simp [TokenSys.init] at h

/-- The lock-ownership invariant is preserved by every step. -/
lemma tokenInv_step {n : Nat} {s s2 : TokenSys n} (hinv : TokenInv s)
    (hstep : TokenStep s s2) : TokenInv s2 := by
  cases hstep with
  | acquire i hpc hown =>
    intro j hj
    by_cases hij : j = i
    · subst hij; rfl
    · have hj' : s.pc j = .locked ∨ s.pc j = .authInFlight := by
        simpa [Function.update_noteq hij] using hj
      have hcontra := hinv j hj'
      simp [hown] at hcontra
  | checkHit i t hpc hown hcache =>
    intro j hj
    by_cases hij : j = i
    · subst hij; simp [Function.update_same] at hj
    · have hj' : s.pc j = .locked ∨ s.pc j = .authInFlight := by
        simpa [Function.update_noteq hij] using hj
      have hcontra := hinv j hj'
      rw [hown] at hcontra
      simp only [Option.some.injEq] at hcontra
      exact absurd hcontra.symm hij
  | checkMiss i hpc hown hcache =>
    intro j hj
    by_cases hij : j = i
    · subst hij; exact hown
    · have hj' : s.pc j = .locked ∨ s.pc j = .authInFlight := by
        simpa [Function.update_noteq hij] using hj
      exact hinv j hj'
  | authOk i t hpc hown =>
    intro j hj
    by_cases hij : j = i
    · subst hij; simp [Function.update_same] at hj
    · have hj' : s.pc j = .locked ∨ s.pc j = .authInFlight := by
        simpa [Function.update_noteq hij] using hj
      have hcontra := hinv j hj'
      rw [hown] at hcontra
      simp only [Option.some.injEq] at hcontra
      exact absurd hcontra.symm hij
  | authFailed i e hpc hown =>
    intro j hj
    by_cases hij : j = i
    · subst hij; simp [Function.update_same] at hj
    · have hj' : s.pc j = .locked ∨ s.pc j = .authInFlight := by
        simpa [Function.update_noteq hij] using hj
      have hcontra := hinv j hj'
      rw [hown] at hcontra
      simp only [Option.some.injEq] at hcontra
      exact absurd hcontra.symm hij

/-- The lock-ownership invariant holds in every reachable state. -/
lemma tokenInv_reachable {n : Nat} {s : TokenSys n} (h : TokenReachable s) : TokenInv s := by
  unfold TokenReachable at h
  induction h with
  | refl => exact tokenInv_init n
  | tail hsteps hstep ih => exact tokenInv_step ih hstep

/-- C3: lifetime_watt_hours() returns 0 when the decoded production list
contains no record whose type field equals the literal string inverters,
and when such a record exists (the first one, with an arbitrary prefix
of non-inverters records before it and arbitrary records after it) it
returns that record's lifetime watt-hours value, regardless of the other
records' types and values. -/
theorem c3_lifetime_selects_inverters (env : Env) (c : Credentials) (t : String)
    (l : List CumulativeProductionResponseItem)
    (hdev : env.device t "/production.json" =
      .response 200 (.obj [("production", .arr (l.map encodeProductionItem))])) :
    ((∀ it ∈ l, it.kind ≠ "inverters") →
      (Client.lifetime_watt_hours env c (some t)).result = .ok 0) ∧
    (∀ pre it post, l = pre ++ it :: post → it.kind = "inverters" →
      (∀ p ∈ pre, p.kind ≠ "inverters") →
      (Client.lifetime_watt_hours env c (some t)).result = .ok it.lifetime_watt_hours) := by
  have hdec : CumulativeProductionResponse.decode
      (.obj [("production", .arr (l.map encodeProductionItem))]) = some ⟨l⟩ := by
    simp [CumulativeProductionResponse.decode, lookupField, decodeProductionItems_encode]
  have hget := get_ok "/production.json" CumulativeProductionResponse.decode env c (some t) t
      (some t) [] 200 _ ⟨l⟩ (token_some env c t) hdev (by decide) hdec
  constructor
  · intro hnone
    have hfind : l.find? (fun item => item.kind == "inverters") = none := by
      rw [List.find?_eq_none]
      intro x hx
      simpa using hnone x hx
    simp [Client.lifetime_watt_hours, hget, extractLifetime, hfind, Except.map]
  · intro pre it post hsplit hkind hpre
    have hfind : l.find? (fun item => item.kind == "inverters") = some it := by
      rw [hsplit]
      exact find?_append_first _ pre post it (by simp [hkind])
        (fun x hx => by simpa using hpre x hx)
    simp [Client.lifetime_watt_hours, hget, extractLifetime, hfind, Except.map]

/-- C3 witness: with no inverters record the operation returns 0; with
records of types eim, inverters (42) and inverters (7) it returns 42,
the value of the first inverters record. -/
theorem c3_witness :
    (Client.lifetime_watt_hours envLifetimeA credW (some "tok")).result = .ok 0 ∧
    (Client.lifetime_watt_hours envLifetimeB credW (some "tok")).result = .ok 42 :=
  ⟨(c3_lifetime_selects_inverters envLifetimeA credW "tok" lifetimeListA rfl).1 (by decide),
   (c3_lifetime_selects_inverters envLifetimeB credW "tok" lifetimeListB rfl).2
     [⟨"eim", 5⟩] ⟨"inverters", 42⟩ [⟨"inverters", 7⟩] rfl rfl (by decide)⟩

/-- C8: when the token issuance request succeeds with a 2xx status, for
every raw response body whatsoever, including ones that are not valid
UTF-8, authenticate succeeds with the lossy UTF-8 decoding of the bytes
(invalid sequences become replacement characters); the body is never
rejected. -/
theorem c8_lossy_utf8_token (env : Env) (c : Credentials) (s : Nat) (body : Json)
    (lr : LoginResponse) (s2 : Nat) (bytes : List Nat)
    (hlogin : env.login c.username c.password = .response s body)
    (hs : 200 ≤ s ∧ s ≤ 299)
    (hdec : LoginResponse.decode body = some lr)
    (htok : env.tokens ⟨lr.session_id, c.username, c.serial_num⟩ = .response s2 bytes)
    (hs2 : 200 ≤ s2 ∧ s2 ≤ 299) :
    (authenticate env c).1 = .ok (utf8Lossy bytes) := by
  have hes : errorStatus s = false := by
    unfold errorStatus
    rw [decide_eq_false_iff_not]
    omega
  have hes2 : errorStatus s2 = false := by
    unfold errorStatus
    rw [decide_eq_false_iff_not]
    omega
  simp [authenticate, hlogin, hes, hdec, htok, hes2]

/-- C8 witness: the token body bytes 104, 255, 105 are not valid UTF-8;
authenticate still succeeds and the token is h, replacement character,
i. -/
theorem c8_witness : (authenticate envBadTokenBytes credW).1 = .ok "h�i" := by
  have h := c8_lossy_utf8_token envBadTokenBytes credW 200 sessionBody ⟨"sid1"⟩ 200
    [104, 255, 105] rfl (by decide) rfl rfl (by decide)
  have he : utf8Lossy [104, 255, 105] = "h�i" := by decide
  rw [he] at h
  exact h

/-- C9: when the device answers /api/v1/production/inverters with a
valid empty JSON list, inverter_production_watts returns the empty list
of records as a success, not an error. -/
theorem c9_empty_inverter_list (env : Env) (c : Credentials) (t : String)
    (hdev : env.device t "/api/v1/production/inverters" = .response 200 (.arr [])) :
    (Client.inverter_production_watts env c (some t)).result = .ok [] := by
  have hget := get_ok "/api/v1/production/inverters" decodeInverterList env c (some t) t
    (some t) [] 200 (.arr []) [] (token_some env c t) hdev (by decide) rfl
  simp [Client.inverter_production_watts, hget]

/-- C9 witness: concrete client against a device reporting zero
inverters. -/
theorem c9_witness :
    (Client.inverter_production_watts envEmptyInverters credW (some "tok")).result = .ok [] :=
  c9_empty_inverter_list envEmptyInverters credW "tok" rfl

/-- C10: token() is atomic on failure: when authenticate fails, token
returns that error and the cache is still empty, and the next token call
on the resulting cache attempts authentication again, with the same
outcome. -/
theorem c10_token_atomic_on_failure (env : Env) (c : Credentials) (e : ReqError)
    (calls : List AuthCall) (hauth : authenticate env c = (.error e, calls)) :
    Client.token env c none = (.error e, none, calls) ∧
    Client.token env c ((Client.token env c none).2.1) = (.error e, none, calls) := by
  have h1 := token_none_error env c e calls hauth
  refine ⟨h1, ?_⟩
  rw [h1]
  exact token_none_error env c e calls hauth

/-- C10 witness: with the cloud login endpoint unreachable, token fails
with the transport error for the login URL and stores nothing. -/
theorem c10_witness :
    Client.token envLoginDown credW none =
      (.error (.transport loginUrl), none, [.cloudLogin "user" "pass"]) :=
  (c10_token_atomic_on_failure envLoginDown credW (.transport loginUrl)
    [.cloudLogin "user" "pass"] rfl).1

/-- C1 is false as stated: with the production fetch failing and the
other two fetches succeeding, the metrics request still replies with the
200 success status — not a server error — and its body carries the
previous, stale production value next to the freshly updated other
metrics. -/
theorem c1_counterexample :
    (metricsHandler ⟨500, [("INV1", 100)], 7⟩ (.error (.transport "boom"))
      (.ok [⟨"INV1", 120⟩]) (.ok 9)).1 = 200 ∧
    ¬ 500 ≤ (metricsHandler ⟨500, [("INV1", 100)], 7⟩ (.error (.transport "boom"))
      (.ok [⟨"INV1", 120⟩]) (.ok 9)).1 ∧
    (metricsHandler ⟨500, [("INV1", 100)], 7⟩ (.error (.transport "boom"))
      (.ok [⟨"INV1", 120⟩]) (.ok 9)).2 = ⟨500, [("INV1", 120)], 9⟩ :=
  ⟨rfl, by decide, by decide⟩

/-- C1 amended: a fetch failure does not abort the scrape: the panic is
confined to the one spawned update task and the join results are
discarded, so the handler always replies with the 200 success status;
each metric whose fetch failed keeps its previous (stale) value while
metrics whose fetches succeeded are updated. -/
theorem c1_scrape_never_fails (st : MetricsState) (r1 : Except ReqError ℚ)
    (r2 : Except ReqError (List InverterProduction)) (r3 : Except ReqError ℚ) :
    (metricsHandler st r1 r2 r3).1 = 200 ∧
    (∀ e, r1 = .error e → (metricsHandler st r1 r2 r3).2.production_watts = st.production_watts) ∧
    (∀ w, r1 = .ok w → (metricsHandler st r1 r2 r3).2.production_watts = w) ∧
    (∀ e, r2 = .error e → (metricsHandler st r1 r2 r3).2.inverter_production_watts =
      st.inverter_production_watts) ∧
    (∀ e, r3 = .error e → (metricsHandler st r1 r2 r3).2.lifetime_watt_hours =
      st.lifetime_watt_hours) ∧
    (∀ l, r3 = .ok l → (metricsHandler st r1 r2 r3).2.lifetime_watt_hours = l) := by
  cases r1 <;> cases r2 <;> cases r3 <;> simp [metricsHandler]

/-- C1 witness: a failed production fetch next to two successful fetches
still yields status 200, the stale production value 1 and the fresh
lifetime value 3. -/
theorem c1_witness :
    (metricsHandler ⟨1, [], 2⟩ (.error (.transport "x")) (.ok []) (.ok 3)).1 = 200 ∧
    (metricsHandler ⟨1, [], 2⟩ (.error (.transport "x")) (.ok []) (.ok 3)).2.production_watts = 1 ∧
    (metricsHandler ⟨1, [], 2⟩ (.error (.transport "x")) (.ok []) (.ok 3)).2.lifetime_watt_hours = 3 := by
  have h := c1_scrape_never_fails ⟨1, [], 2⟩ (.error (.transport "x")) (.ok []) (.ok 3)
  exact ⟨h.1, h.2.1 (.transport "x") rfl, h.2.2.2.2.2 3 rfl⟩

/-- C2: a fetch that succeeds on an empty token cache performed exactly
one authentication exchange — one cloud login followed by one token
issuance — stored the obtained token t and sent its single device
request bearing t; any fetch performed afterwards while the cache holds
t performs zero authentication exchanges, leaves the cache holding t,
and sends its device request with the cached t. -/
theorem c2_single_auth_then_cached {ρ ρ2 : Type} (path path2 : String)
    (dec : Json → Option ρ) (dec2 : Json → Option ρ2) (env : Env) (c : Credentials)
    (r : ρ) (t : String)
    (hsucc : (Client.get path dec env c none).result = .ok r)
    (hcache : (Client.get path dec env c none).cache = some t) :
    (Client.get path dec env c none).authCalls.map AuthCall.endpoint = [loginUrl, tokensUrl] ∧
    (Client.get path dec env c none).deviceCalls = [⟨path, t⟩] ∧
    (Client.get path2 dec2 env c (some t)).authCalls = [] ∧
    (Client.get path2 dec2 env c (some t)).cache = some t ∧
    (Client.get path2 dec2 env c (some t)).deviceCalls = [⟨path2, t⟩] := by
  rcases hauth : authenticate env c with ⟨res, calls⟩
  cases res with
  | error e =>
    have htok := token_none_error env c e calls hauth
    have hget := get_of_token_error path dec env c none e none calls htok
    rw [hget] at hsucc
    simp at hsucc
  | ok t0 =>
    have htok := token_none_ok env c t0 calls hauth
    have hcomp := get_of_token_ok path dec env c none t0 (some t0) calls htok
    have ht : t0 = t := Option.some.inj (hcomp.1.symm.trans hcache)
    subst ht
    obtain ⟨sid, hcalls⟩ := authenticate_ok_shape env c t0 calls hauth
    have hnext := get_of_token_ok path2 dec2 env c (some t0) t0 (some t0) []
      (token_some env c t0)
    refine ⟨?_, hcomp.2.2, hnext.2.1, hnext.1, hnext.2.2⟩
    rw [hcomp.2.1, hcalls]
    simp [AuthCall.endpoint]

/-- C2 witness: against the healthy environment a first fetch on the
empty cache makes exactly the login and token issuance calls, and a
second fetch on the cached token makes none and reuses it. -/
theorem c2_witness :
    (Client.get "/ivp/meters/reports/production" ProductionResponse.decode envAuthOk credW
      none).authCalls.map AuthCall.endpoint = [loginUrl, tokensUrl] ∧
    (Client.get "/production.json" CumulativeProductionResponse.decode envAuthOk credW
      (some "tok")).authCalls = [] ∧
    (Client.get "/production.json" CumulativeProductionResponse.decode envAuthOk credW
      (some "tok")).deviceCalls = [⟨"/production.json", "tok"⟩] := by
  have h := c2_single_auth_then_cached "/ivp/meters/reports/production" "/production.json"
    ProductionResponse.decode CumulativeProductionResponse.decode envAuthOk credW
    ⟨⟨532⟩⟩ "tok" rfl (by decide)
  exact ⟨h.1, h.2.2.1, h.2.2.2.2⟩

/-- C4: token acquisition is mutually exclusive: in every state
reachable by interleaving any number of concurrent Client::token callers
from the initial empty-cache state, a caller whose authenticate exchange
is in flight owns the token mutex, and no two distinct callers can have
exchanges in flight simultaneously — racing first-scrape fetches cannot
put two authentication exchanges in flight at once. -/
theorem c4_auth_mutual_exclusion (n : Nat) (s : TokenSys n) (hreach : TokenReachable s)
    (i : Fin n) (hi : s.pc i = .authInFlight) :
    s.owner = some i ∧ ∀ j, s.pc j = .authInFlight → j = i := by
  have hinv := tokenInv_reachable hreach
  have howner := hinv i (Or.inr hi)
  refine ⟨howner, fun j hj => ?_⟩
  have hj2 := hinv j (Or.inr hj)
  rw [howner] at hj2
  exact (Option.some.inj hj2).symm

/-- C4 witness: after caller 0 of two acquires the mutex and starts its
authenticate exchange, that reachable state has caller 0 as mutex
owner. -/
theorem c4_witness : tokenSysAuth.owner = some 0 :=
  (c4_auth_mutual_exclusion 2 tokenSysAuth
    (Relation.ReflTransGen.tail (Relation.ReflTransGen.tail Relation.ReflTransGen.refl
      (TokenStep.acquire 0 rfl rfl))
      (TokenStep.checkMiss 0 rfl rfl rfl))
    0 rfl).1

/-- C5 is false as stated: the code has no dedicated AuthError type —
both authentication steps fail through error_for_status with the same
generic status-error variant of the single error type, distinguishable
only by the URL and code they carry; moreover a non-2xx login status
outside the 4xx and 5xx ranges (here 301) does not fail the login step
at all. -/
theorem c5_counterexample :
    (authenticate envLogin401 credW).1 = .error (.status loginUrl 401) ∧
    (authenticate envTokens403 credW).1 = .error (.status tokensUrl 403) ∧
    ReqError.isStatus (.status loginUrl 401) = true ∧
    ReqError.isStatus (.status tokensUrl 403) = true ∧
    (authenticate envLogin301 credW).1 = .ok "tok" := by
  refine ⟨rfl, rfl, rfl, rfl, ?_⟩
  have he : utf8Lossy [116, 111, 107] = "tok" := by decide
  calc (authenticate envLogin301 credW).1
      = .ok (utf8Lossy [116, 111, 107]) := rfl
    _ = .ok "tok" := by rw [he]

/-- C5 amended: a 4xx or 5xx response from the cloud login step makes
authenticate fail with a status error carrying the login URL and code; a
4xx or 5xx response from the token issuance step makes it fail with a
status error carrying the tokens URL and code; the two failures share
the same generic status-error variant and are distinguishable only by
the distinct URLs they carry. -/
theorem c5_status_error_per_step (env : Env) (c : Credentials) :
    (∀ s body, 400 ≤ s → s ≤ 599 → env.login c.username c.password = .response s body →
      (authenticate env c).1 = .error (.status loginUrl s)) ∧
    (∀ s body lr s2 bytes2, env.login c.username c.password = .response s body →
      errorStatus s = false → LoginResponse.decode body = some lr →
      env.tokens ⟨lr.session_id, c.username, c.serial_num⟩ = .response s2 bytes2 →
      400 ≤ s2 → s2 ≤ 599 →
      (authenticate env c).1 = .error (.status tokensUrl s2)) ∧
    loginUrl ≠ tokensUrl := by
  refine ⟨?_, ?_, by decide⟩
  · intro s body h4 h5 hlogin
    have hes : errorStatus s = true := by
      unfold errorStatus
      rw [decide_eq_true_eq]
      exact ⟨h4, h5⟩
    simp [authenticate, hlogin, hes]
  · intro s body lr s2 bytes2 hlogin hes hdec htok h4 h5
    have hes2 : errorStatus s2 = true := by
      unfold errorStatus
      rw [decide_eq_true_eq]
      exact ⟨h4, h5⟩
    simp [authenticate, hlogin, hes, hdec, htok, hes2]

/-- C5 witness: login rejected with 401 yields the status error for the
login URL; token issuance rejected with 403 yields the status error for
the tokens URL. -/
theorem c5_witness :
    (authenticate envLogin401 credW).1 = .error (.status loginUrl 401) ∧
    (authenticate envTokens403 credW).1 = .error (.status tokensUrl 403) :=
  ⟨(c5_status_error_per_step envLogin401 credW).1 401 .null (by decide) (by decide) rfl,
   (c5_status_error_per_step envTokens403 credW).2.1 200 sessionBody ⟨"sid1"⟩ 403 []
     rfl (by decide) rfl rfl (by decide) (by decide)⟩

/-- C6 is false as stated: a fetch on an empty cache that is answered
401 first authenticates and stores the fresh token, so the cache after
the failed fetch (holding the token) differs from the cache before it
(empty), even though the 401 handling itself did not touch the cache. -/
theorem c6_counterexample :
    (Client.production_watts env401 credW none).result =
      .error (.status (deviceUrl credW "/ivp/meters/reports/production") 401) ∧
    (Client.production_watts env401 credW none).cache = some "tok" ∧
    (Client.production_watts env401 credW none).cache ≠ none :=
  ⟨rfl, by decide, by decide⟩

/-- C6 amended: a device fetch answered 401 surfaces the unauthorized
status error without any retry — exactly one device request is issued —
and the 401 handling neither invalidates nor replaces the cached token:
with a cached token t the cache still holds t afterwards and no
authentication request is made, and with an empty cache the token
freshly stored by the fetch's own token acquisition is left in place. -/
theorem c6_unauthorized_no_retry {ρ : Type} (path : String) (dec : Json → Option ρ)
    (env : Env) (c : Credentials) (t : String) (body : Json)
    (hdev : env.device t path = .response 401 body) :
    (Client.get path dec env c (some t) =
      ⟨.error (.status (deviceUrl c path) 401), some t, [], [⟨path, t⟩]⟩) ∧
    (∀ calls, authenticate env c = (.ok t, calls) →
      Client.get path dec env c none =
        ⟨.error (.status (deviceUrl c path) 401), some t, calls, [⟨path, t⟩]⟩) := by
  constructor
  · exact get_status_error path dec env c (some t) t (some t) [] 401 body
      (token_some env c t) hdev (by decide)
  · intro calls hauth
    exact get_status_error path dec env c none t (some t) calls 401 body
      (token_none_ok env c t calls hauth) hdev (by decide)

/-- C6 witness: a 401-answered fetch with the token already cached
surfaces the status error, keeps the cache and issues one request; the
same fetch on an empty cache leaves the freshly stored token behind. -/
theorem c6_witness :
    Client.get "/x" ProductionResponse.decode env401 credW (some "tok") =
      ⟨.error (.status (deviceUrl credW "/x") 401), some "tok", [], [⟨"/x", "tok"⟩]⟩ ∧
    Client.get "/x" ProductionResponse.decode env401 credW none =
      ⟨.error (.status (deviceUrl credW "/x") 401), some "tok",
        [.cloudLogin "user" "pass", .tokenIssuance ⟨"sid1", "user", "sn1"⟩],
        [⟨"/x", "tok"⟩]⟩ := by
  have h := c6_unauthorized_no_retry "/x" ProductionResponse.decode env401 credW "tok" .null rfl
  have hauth : authenticate env401 credW =
      (.ok "tok", [.cloudLogin "user" "pass", .tokenIssuance ⟨"sid1", "user", "sn1"⟩]) := by
    have he : utf8Lossy [116, 111, 107] = "tok" := by decide
    rw [show authenticate env401 credW = (Except.ok (utf8Lossy [116, 111, 107]),
      [AuthCall.cloudLogin "user" "pass",
       AuthCall.tokenIssuance ⟨"sid1", "user", "sn1"⟩]) from rfl, he]
  exact ⟨h.1, h.2 _ hauth⟩

/-- C7: one scrape's inverter update writes the fetched watts for every
serial present in the current list — updating existing gauges and
creating gauges for newly appeared serials — provided the fetched
serials are distinct, and every serial with a gauge from an earlier
scrape that is absent from the current list keeps its previous value:
stale serials are never removed. -/
theorem c7_gauges_update_and_keep (gauges : List (String × ℚ))
    (invs : List InverterProduction) :
    ((invs.map InverterProduction.serial_num).Nodup →
      ∀ inv ∈ invs, lookupGauge (updateInverterGauges gauges invs) inv.serial_num =
        some inv.last_known_watts) ∧
    (∀ serial, serial ∉ invs.map InverterProduction.serial_num →
      lookupGauge (updateInverterGauges gauges invs) serial = lookupGauge gauges serial) := by
  constructor
  · intro hnd inv hmem
    exact updateInverterGauges_mem invs gauges inv hmem hnd
  · intro serial h
    exact updateInverterGauges_not_mem invs gauges serial h

/-- C7 witness: rescraping over gauges INV1 120 and OLD 50 with fetched
records INV1 130 and INV2 7 updates INV1, creates INV2 and leaves the
absent OLD at its previous value. -/
theorem c7_witness :
    lookupGauge (updateInverterGauges [("INV1", 120), ("OLD", 50)]
      [⟨"INV1", 130⟩, ⟨"INV2", 7⟩]) "INV1" = some 130 ∧
    lookupGauge (updateInverterGauges [("INV1", 120), ("OLD", 50)]
      [⟨"INV1", 130⟩, ⟨"INV2", 7⟩]) "INV2" = some 7 ∧
    lookupGauge (updateInverterGauges [("INV1", 120), ("OLD", 50)]
      [⟨"INV1", 130⟩, ⟨"INV2", 7⟩]) "OLD" = some 50 := by
  have h := c7_gauges_update_and_keep [("INV1", 120), ("OLD", 50)]
    [⟨"INV1", 130⟩, ⟨"INV2", 7⟩]
  refine ⟨h.1 (by decide) ⟨"INV1", 130⟩ (by decide),
    h.1 (by decide) ⟨"INV2", 7⟩ (by decide), ?_⟩
  rw [h.2 "OLD" (by decide)]
  decide

end EnphaseEnvoy
